import Mathlib

/-!
Verification of the particle / spatial-sampling core of an OpenMC snapshot.

Shallow embedding of `src/distribution_spatial.cpp` and
`src/include/openmc/particle.h`.  C++ `double` is modelled as `ℝ`; the
process-wide pseudorandom stream consumed by `prn()` is modelled as an
explicit state (an infinite stream of reals together with a cursor); a call
to `fatal_error` (which aborts the process before any further mutation) is
modelled by an `Option`-valued constructor/operation returning `none`.
-/

set_option autoImplicit false

namespace OpenMC

/-- A 3-D position with real components, mirroring the openmc `Position` type
(components in axis order x, y, z).  Arithmetic on `Position` is
component-wise, as in the C++ operators used by `SpatialBox::sample`. -/
structure Position where
  x : ℝ
  y : ℝ
  z : ℝ

instance : Add Position := ⟨fun a b => ⟨a.x + b.x, a.y + b.y, a.z + b.z⟩⟩
instance : Sub Position := ⟨fun a b => ⟨a.x - b.x, a.y - b.y, a.z - b.z⟩⟩
instance : Mul Position := ⟨fun a b => ⟨a.x * b.x, a.y * b.y, a.z * b.z⟩⟩

/-- The shared pseudorandom stream consumed by `prn()` (from
`random_lcg`, external to the translated sources): an infinite stream of
reals together with a cursor marking the next value to deliver. -/
structure RNG where
  stream : ℕ → ℝ
  idx : ℕ

/-- One call of `prn()`: deliver the next value of the stream and advance
the cursor.  The stream itself is never altered, only the cursor moves. -/
def RNG.prn (s : RNG) : ℝ × RNG :=
  (s.stream s.idx, ⟨s.stream, s.idx + 1⟩)

/-- The pseudorandom stream produces values in `[0, 1)` — the contract of
`prn()` stated by the spec for uniform draws. -/
def RNG.in01 (s : RNG) : Prop :=
  ∀ n : ℕ, 0 ≤ s.stream n ∧ s.stream n < 1

/-- A 1-D `Distribution` (the abstract class behind `UPtrDist`): a sampler
mapping the pseudorandom state to a value and the successor state. -/
def Dist : Type := RNG → ℝ × RNG

/-- Modelled from the spec: the single-point `Discrete{x, p, 1}` sampler
used as the default for an absent axis (its implementation,
`distribution.cpp`, is not among the translated sources).  A fixed-point
sampler returns exactly its configured coordinate on every draw. -/
def pointDist (c : ℝ) : Dist := fun rng => (c, rng)

/-- The optional child nodes of a Cartesian spatial-distribution
configuration: a present child stands for the 1-D distribution built from
it by `distribution_from_xml` (external); an absent child is `none`. -/
structure CartesianConfig where
  x : Option Dist
  y : Option Dist
  z : Option Dist

/-- The optional child nodes (`r`, `theta`, `z`) of a cylindrical
spatial-distribution configuration. -/
structure CylindricalConfig where
  r : Option Dist
  theta : Option Dist
  z : Option Dist

/-- The `CartesianIndependent`: three independent 1-D samplers for x, y, z. -/
structure CartesianIndependent where
  x_ : Dist
  y_ : Dist
  z_ : Dist

/-- The `CartesianIndependent::CartesianIndependent(pugi::xml_node)`: each of
the three axis samplers comes from the corresponding child node when
present, and defaults to a single point at 0 when absent. -/
def CartesianIndependent.ofConfig (node : CartesianConfig) : CartesianIndependent :=
  { x_ := node.x.getD (pointDist 0)
    y_ := node.y.getD (pointDist 0)
    z_ := node.z.getD (pointDist 0) }

/-- The `CartesianIndependent::sample`: one draw from each child sampler, in
the order x, y, z, assembled directly as the position. -/
def CartesianIndependent.sample (d : CartesianIndependent) (rng : RNG) :
    Position × RNG :=
  let xr := d.x_ rng
  let yr := d.y_ xr.2
  let zr := d.z_ yr.2
  (⟨xr.1, yr.1, zr.1⟩, zr.2)

/-- The `CylindricalIndependent`: independent samplers for radius, angle, z. -/
structure CylindricalIndependent where
  r_ : Dist
  theta_ : Dist
  z_ : Dist

/-- The `CylindricalIndependent::CylindricalIndependent(pugi::xml_node)`: each
child sampler from its node when present, single point at 0 otherwise. -/
def CylindricalIndependent.ofConfig (node : CylindricalConfig) : CylindricalIndependent :=
  { r_ := node.r.getD (pointDist 0)
    theta_ := node.theta.getD (pointDist 0)
    z_ := node.z.getD (pointDist 0) }

/-- The `CylindricalIndependent::sample`: draw r, then theta, then z, and map
to Cartesian as `(r*cos(theta), r*sin(theta), z)`.  No Jacobian
correction is applied to the radius draw. -/
noncomputable def CylindricalIndependent.sample (d : CylindricalIndependent)
    (rng : RNG) : Position × RNG :=
  let rr := d.r_ rng
  let tr := d.theta_ rr.2
  let zr := d.z_ tr.2
  (⟨rr.1 * Real.cos tr.1, rr.1 * Real.sin tr.1, zr.1⟩, zr.2)

/-- The `SpatialBox`: axis-aligned box bounds plus the fissionable-only
restriction flag. -/
structure SpatialBox where
  only_fissionable_ : Bool
  lower_left_ : Position
  upper_right_ : Position

/-- The `SpatialBox::SpatialBox(pugi::xml_node, bool)`: read the `parameters`
array; `fatal_error` (modelled as `none`) unless it has exactly six
entries; otherwise store the first three as `lower_left_` and the last
three as `upper_right_`.  No other validation is performed. -/
def SpatialBox.ofConfig (params : List ℝ) (fission : Bool) : Option SpatialBox :=
  if h : params.length = 6 then
    some ⟨fission,
      ⟨params.get ⟨0, by omega⟩, params.get ⟨1, by omega⟩, params.get ⟨2, by omega⟩⟩,
      ⟨params.get ⟨3, by omega⟩, params.get ⟨4, by omega⟩, params.get ⟨5, by omega⟩⟩⟩
  else
    none

/-- The `SpatialBox::sample`: three `prn()` draws assembled as `xi`, then
`lower_left_ + xi*(upper_right_ - lower_left_)` component-wise. -/
def SpatialBox.sample (b : SpatialBox) (rng : RNG) : Position × RNG :=
  let p1 := rng.prn
  let p2 := p1.2.prn
  let p3 := p2.2.prn
  let xi : Position := ⟨p1.1, p2.1, p3.1⟩
  (b.lower_left_ + xi * (b.upper_right_ - b.lower_left_), p3.2)

/-- The `N` successive calls of `SpatialBox::sample` on the threaded
pseudorandom state, collecting the sampled positions in order. -/
def SpatialBox.sampleN (b : SpatialBox) : ℕ → RNG → List Position × RNG
  | 0, rng => ([], rng)
  | n + 1, rng =>
    let pr := b.sample rng
    let rest := b.sampleN n pr.2
    (pr.1 :: rest.1, rest.2)

/-- Component-wise membership of a position in the closed box. -/
def SpatialBox.contains (b : SpatialBox) (p : Position) : Prop :=
  b.lower_left_.x ≤ p.x ∧ p.x ≤ b.upper_right_.x ∧
  b.lower_left_.y ≤ p.y ∧ p.y ≤ b.upper_right_.y ∧
  b.lower_left_.z ≤ p.z ∧ p.z ≤ b.upper_right_.z

/-- Valid bounds: each lower component at most the corresponding upper. -/
def SpatialBox.valid (b : SpatialBox) : Prop :=
  b.lower_left_.x ≤ b.upper_right_.x ∧
  b.lower_left_.y ≤ b.upper_right_.y ∧
  b.lower_left_.z ≤ b.upper_right_.z

/-- The `SpatialPoint`: a fixed point. -/
structure SpatialPoint where
  r_ : Position

/-- The `SpatialPoint::SpatialPoint(pugi::xml_node)`: read the `parameters`
array; `fatal_error` (modelled as `none`) unless it has exactly three
entries; otherwise store them as the position. -/
def SpatialPoint.ofConfig (params : List ℝ) : Option SpatialPoint :=
  if h : params.length = 3 then
    some ⟨⟨params.get ⟨0, by omega⟩, params.get ⟨1, by omega⟩, params.get ⟨2, by omega⟩⟩⟩
  else
    none

/-- The `SpatialPoint::sample`: return the stored position; the pseudorandom
state is not consulted at all. -/
def SpatialPoint.sample (pt : SpatialPoint) (rng : RNG) : Position × RNG :=
  (pt.r_, rng)

/-- The polymorphic `SpatialDistribution` hierarchy as a tagged variant. -/
inductive SpatialDistribution where
  | cartesian (d : CartesianIndependent)
  | cylindrical (d : CylindricalIndependent)
  | box (b : SpatialBox)
  | point (pt : SpatialPoint)

/-- Virtual dispatch of `sample()`, made stateful over the distribution as
well: a call receives the distribution and the pseudorandom state and
returns the position, the distribution as left behind by the call, and the
successor pseudorandom state.  Each variant has a `const` `sample` in the
C++, so each branch returns the distribution it received. -/
noncomputable def SpatialDistribution.sampleS :
    SpatialDistribution → RNG → Position × SpatialDistribution × RNG
  | cartesian d, rng =>
    let pr := d.sample rng
    (pr.1, cartesian d, pr.2)
  | cylindrical d, rng =>
    let pr := d.sample rng
    (pr.1, cylindrical d, pr.2)
  | box b, rng =>
    let pr := b.sample rng
    (pr.1, box b, pr.2)
  | point pt, rng =>
    let pr := pt.sample rng
    (pr.1, point pt, pr.2)

/-! ## Particle

`src/include/openmc/particle.h` declares the `Particle` state and its
operations; the operation bodies live in `particle.cpp`, which is not
among the translated sources, so they are modelled from the spec where
noted. -/

/-- The `MAX_DELAYED_GROUPS` from `particle.h`. -/
def MAX_DELAYED_GROUPS : ℕ := 8

/-- The `MAX_SECONDARY` from `particle.h`: maximum number of secondary
particles created. -/
def MAX_SECONDARY : ℕ := 1000

/-- The `ParticleType` from `particle.h`. -/
inductive ParticleType where
  | neutron
  | photon
  | electron
  | positron
deriving DecidableEq

/-- The `LocalCoord` from `particle.h`: one coordinate level (handles,
lattice indices, position, direction, rotation flag). -/
structure LocalCoord where
  cell : ℤ
  univ : ℤ
  lattice : ℤ
  lattice_x : ℤ
  lattice_y : ℤ
  lattice_z : ℤ
  xyz : Position
  uvw : Position
  rotated : Bool

/-- Modelled from the spec: `LocalCoord::reset` (body in `particle.cpp`,
not among the translated sources) returns the level to the canonical
unset state — all handles invalid (-1), not rotated. -/
def LocalCoord.reset (c : LocalCoord) : LocalCoord :=
  { c with cell := -1, univ := -1, lattice := -1,
           lattice_x := -1, lattice_y := -1, lattice_z := -1,
           rotated := false }

/-- The `Bank`: the Source Record wire contract — position, direction,
energy, statistical weight, particle kind, delayed-group tag.  (The
struct itself is declared outside the translated sources; fields follow
the interchange contract of the spec, with the energy scalar carrying the
continuous value or, in multigroup mode, the group index.) -/
structure Bank where
  wgt : ℝ
  xyz : Position
  uvw : Position
  E : ℝ
  particle : ParticleType
  delayed_group : ℤ

/-- The phase-space snapshot persisted by `write_restart()` — everything
needed to reconstruct the particle via an equivalent of `from_source`. -/
structure Snapshot where
  xyz0 : Position
  uvw0 : Position
  E : ℝ
  wgt : ℝ
  kind : ParticleType
  delayed_group : ℤ
  n_collision : ℤ

/-- The `Particle` state from `particle.h`.  The coordinate array
`coord_[MAX_COORD]` is modelled as a function from level index to
`LocalCoord` together with the live count `n_coord_`; the secondary bank
array plus its count `n_secondary_` are modelled as a list (`n_secondary_`
is its length).  `lost_message_` and `restart_` record the externally
visible effects of `mark_as_lost` (warning message, restart snapshot). -/
structure Particle where
  id_ : ℤ
  type_ : ParticleType
  n_coord_ : ℕ
  coord_ : ℕ → LocalCoord
  last_n_coord_ : ℕ
  E_ : ℝ
  last_E_ : ℝ
  g_ : ℤ
  last_g_ : ℤ
  wgt_ : ℝ
  mu_ : ℝ
  alive_ : Bool
  last_wgt_ : ℝ
  absorb_wgt_ : ℝ
  fission_ : Bool
  event_ : ℤ
  event_nuclide_ : ℤ
  event_mt_ : ℤ
  delayed_group_ : ℤ
  n_bank_ : ℤ
  wgt_bank_ : ℝ
  n_delayed_bank_ : ℕ → ℤ
  surface_ : ℤ
  material_ : ℤ
  sqrtkT_ : ℝ
  n_collision_ : ℤ
  secondary_bank_ : List Bank
  lost_message_ : Option String
  restart_ : Option Snapshot

/-- The `n_secondary_`: the number of records in the secondary bank. -/
def Particle.n_secondary (p : Particle) : ℕ :=
  p.secondary_bank_.length

/-- The serializable phase-space content of the particle (what
`write_restart()` persists). -/
def Particle.phase_snapshot (p : Particle) : Snapshot :=
  ⟨(p.coord_ 0).xyz, (p.coord_ 0).uvw, p.E_, p.wgt_, p.type_,
    p.delayed_group_, p.n_collision_⟩

/-- Modelled from the spec: `Particle::create_secondary` (body in
`particle.cpp`, not among the translated sources).  If the secondary bank
already holds `MAX_SECONDARY` records the call is a fatal error (`none`;
`fatal_error` aborts before any write, so the particle is untouched).
Otherwise it appends one record carrying the current particle position
(level 0) and weight together with the given direction, energy and kind,
incrementing the count by one.  The `run_CE` flag selects the
continuous-vs-group interpretation of the energy scalar and does not
change the banked fields in this model. -/
def Particle.create_secondary (p : Particle) (uvw : Position) (E : ℝ)
    (ty : ParticleType) (_run_CE : Bool) : Option Particle :=
  if p.secondary_bank_.length = MAX_SECONDARY then
    none
  else
    some { p with secondary_bank_ :=
      p.secondary_bank_ ++ [⟨p.wgt_, (p.coord_ 0).xyz, uvw, E, ty, p.delayed_group_⟩] }

/-- Modelled from the spec: `Particle::from_source` (body in
`particle.cpp`, not among the translated sources).  Loads the record
position and direction into level 0 of the coordinate stack, clears the
stack above level 0 (every higher level reset to the canonical unset
state, count back to 1), sets the scalar fields (energy, weight, kind,
delayed group), resets the secondary bank, sets `alive_ = true` and
resets the per-history counters. -/
def Particle.from_source (p : Particle) (src : Bank) : Particle :=
  { p with
    alive_ := true
    type_ := src.particle
    wgt_ := src.wgt
    last_wgt_ := src.wgt
    absorb_wgt_ := 0
    E_ := src.E
    last_E_ := src.E
    delayed_group_ := src.delayed_group
    n_coord_ := 1
    coord_ := fun i =>
      if i = 0 then
        { (p.coord_ 0).reset with xyz := src.xyz, uvw := src.uvw }
      else
        (p.coord_ i).reset
    secondary_bank_ := []
    n_collision_ := 0
    n_bank_ := 0
    wgt_bank_ := 0
    n_delayed_bank_ := fun _ => 0
    fission_ := false }

/-- Recover a Source Record from the current particle state: position
and direction at level 0 and the scalar fields. -/
def Particle.extract_source (p : Particle) : Bank :=
  ⟨p.wgt_, (p.coord_ 0).xyz, (p.coord_ 0).uvw, p.E_, p.type_, p.delayed_group_⟩

/-- Modelled from the spec: `Particle::mark_as_lost` (body in
`particle.cpp`, not among the translated sources).  Sets `alive_ = false`,
records the warning message, and triggers `write_restart()` — persisting
the phase-space snapshot as of the call.  Any lost-particle accounting is
left to the external aggregator, which treats the call as a single event per
particle. -/
def Particle.mark_as_lost (p : Particle) (message : String) : Particle :=
  let q := { p with alive_ := false, lost_message_ := some message }
  { q with restart_ := some q.phase_snapshot }

/-! ## Concrete fixtures used by the witness theorems -/

/-- A pseudorandom state delivering 0 forever (a legal `[0,1)` stream). -/
def zeroRng : RNG := ⟨fun _ => 0, 0⟩

/-- A concrete box used by witnesses: bounds (0,0,0) to (1,2,3). -/
def unitBox : SpatialBox := ⟨false, ⟨0, 0, 0⟩, ⟨1, 2, 3⟩⟩

/-- A canonical unset coordinate level. -/
def unsetCoord : LocalCoord := ⟨-1, -1, -1, -1, -1, -1, ⟨0, 0, 0⟩, ⟨0, 0, 1⟩, false⟩

/-- A concrete Source Record used by witnesses. -/
def testBankRecord : Bank := ⟨1, ⟨1, 2, 3⟩, ⟨0, 0, 1⟩, 1000000, ParticleType.neutron, 0⟩

/-- A concrete particle with an empty secondary bank. -/
def testParticle : Particle :=
  { id_ := 7
    type_ := ParticleType.neutron
    n_coord_ := 1
    coord_ := fun _ => unsetCoord
    last_n_coord_ := 1
    E_ := 0
    last_E_ := 0
    g_ := 0
    last_g_ := 0
    wgt_ := 1
    mu_ := 0
    alive_ := false
    last_wgt_ := 1
    absorb_wgt_ := 0
    fission_ := false
    event_ := 0
    event_nuclide_ := 0
    event_mt_ := 0
    delayed_group_ := 0
    n_bank_ := 0
    wgt_bank_ := 0
    n_delayed_bank_ := fun _ => 0
    surface_ := 0
    material_ := 0
    sqrtkT_ := 0
    n_collision_ := 0
    secondary_bank_ := []
    lost_message_ := none
    restart_ := none }

/-- A concrete particle whose secondary bank is exactly at capacity. -/
def fullParticle : Particle :=
  { testParticle with secondary_bank_ := List.replicate MAX_SECONDARY testBankRecord }

/-! ## Helper lemmas -/

theorem Position.add_def (a b : Position) :
    a + b = ⟨a.x + b.x, a.y + b.y, a.z + b.z⟩ := rfl

theorem Position.sub_def (a b : Position) :
    a - b = ⟨a.x - b.x, a.y - b.y, a.z - b.z⟩ := rfl

theorem Position.mul_def (a b : Position) :
    a * b = ⟨a.x * b.x, a.y * b.y, a.z * b.z⟩ := rfl

/-- Linear interpolation with a coefficient in `[0, 1)` stays within the
interval. -/
theorem interp_mem (lo hi t : ℝ) (h : lo ≤ hi) (h0 : 0 ≤ t) (h1 : t < 1) :
    lo ≤ lo + t * (hi - lo) ∧ lo + t * (hi - lo) ≤ hi := by
  constructor <;> nlinarith

/-- Unfolded form of one `SpatialBox::sample` call. -/
theorem SpatialBox.sample_eq (b : SpatialBox) (rng : RNG) :
    b.sample rng =
      (b.lower_left_ +
        (⟨rng.stream rng.idx, rng.stream (rng.idx + 1),
          rng.stream (rng.idx + 2)⟩ : Position) *
          (b.upper_right_ - b.lower_left_),
       ⟨rng.stream, rng.idx + 3⟩) := rfl

/-- One `SpatialBox::sample` call on a valid box with a `[0,1)` stream
lands inside the box. -/
theorem SpatialBox.sample_mem (b : SpatialBox) (rng : RNG)
    (hb : b.valid) (hs : rng.in01) : b.contains (b.sample rng).1 := by
  obtain ⟨hbx, hby, hbz⟩ := hb
  obtain ⟨h0x, h1x⟩ := hs rng.idx
  obtain ⟨h0y, h1y⟩ := hs (rng.idx + 1)
  obtain ⟨h0z, h1z⟩ := hs (rng.idx + 2)
  rw [SpatialBox.sample_eq]
  refine ⟨?_, ?_, ?_, ?_, ?_, ?_⟩ <;>
    simp only [Position.add_def, Position.sub_def, Position.mul_def]
  · exact (interp_mem _ _ _ hbx h0x h1x).1
  · exact (interp_mem _ _ _ hbx h0x h1x).2
  · exact (interp_mem _ _ _ hby h0y h1y).1
  · exact (interp_mem _ _ _ hby h0y h1y).2
  · exact (interp_mem _ _ _ hbz h0z h1z).1
  · exact (interp_mem _ _ _ hbz h0z h1z).2

/-- Every position collected over `N` successive `SpatialBox::sample`
calls on a valid box with a `[0,1)` stream lies inside the box. -/
theorem SpatialBox.sampleN_mem (b : SpatialBox) (hb : b.valid) :
    ∀ (N : ℕ) (rng : RNG), rng.in01 →
      ∀ p ∈ (b.sampleN N rng).1, b.contains p := by
  intro N
  induction N with
  | zero =>
    intro rng _ p hp
    simp [SpatialBox.sampleN] at hp
  | succ n ih =>
    intro rng hs p hp
    simp only [SpatialBox.sampleN, List.mem_cons] at hp
    rcases hp with hp | hp
    · exact hp ▸ b.sample_mem rng hb hs
    · exact ih (b.sample rng).2 (fun n => hs n) p hp

/-! ## Claims -/

/-- Claim C1: constructing a `SpatialBox` from a `parameters` list whose
length differs from 6, or a `SpatialPoint` from one whose length differs
from 3, is a fatal configuration error at construction (modelled: the
constructor returns `none`, before any `sample` call can exist); with the
correct count, construction succeeds, a box storing the first three values
as the lower bound and the last three as the upper bound in axis order
x, y, z, and a point storing the three values as its position. -/
theorem claim_C1 (params : List ℝ) (fission : Bool) :
    (params.length ≠ 6 → SpatialBox.ofConfig params fission = none) ∧
    (params.length ≠ 3 → SpatialPoint.ofConfig params = none) ∧
    (∀ h : params.length = 6, ∃ b, SpatialBox.ofConfig params fission = some b ∧
      b.only_fissionable_ = fission ∧
      b.lower_left_ =
        ⟨params.get ⟨0, by omega⟩, params.get ⟨1, by omega⟩, params.get ⟨2, by omega⟩⟩ ∧
      b.upper_right_ =
        ⟨params.get ⟨3, by omega⟩, params.get ⟨4, by omega⟩, params.get ⟨5, by omega⟩⟩) ∧
    (∀ h : params.length = 3, ∃ pt, SpatialPoint.ofConfig params = some pt ∧
      pt.r_ =
        ⟨params.get ⟨0, by omega⟩, params.get ⟨1, by omega⟩, params.get ⟨2, by omega⟩⟩) := by
  refine ⟨fun h => ?_, fun h => ?_, fun h => ?_, fun h => ?_⟩
  · rw [SpatialBox.ofConfig, dif_neg h]
  · rw [SpatialPoint.ofConfig, dif_neg h]
  · rw [SpatialBox.ofConfig, dif_pos h]
    exact ⟨_, rfl, rfl, rfl, rfl⟩
  · rw [SpatialPoint.ofConfig, dif_pos h]
    exact ⟨_, rfl, rfl⟩

/-- Witness for claim C1 at concrete inputs: a 2-entry list is rejected by
both constructors; correctly sized lists are accepted. -/
theorem claim_C1_witness :
    SpatialBox.ofConfig [1, 2] true = none ∧
    SpatialPoint.ofConfig [1, 2] = none ∧
    (SpatialBox.ofConfig [1, 2, 3, 4, 5, 6] true).isSome = true ∧
    (SpatialPoint.ofConfig [4, 5, 6]).isSome = true := by
  refine ⟨(claim_C1 [1, 2] true).1 (by simp),
          (claim_C1 [1, 2] true).2.1 (by simp), ?_, ?_⟩
  · obtain ⟨b, hb, -⟩ := (claim_C1 [1, 2, 3, 4, 5, 6] true).2.2.1 (by simp)
    simp [hb]
  · obtain ⟨pt, hpt, -⟩ := (claim_C1 [4, 5, 6] true).2.2.2 (by simp)
    simp [hpt]

/-- Claim C8 counterexample: the claim says a `SpatialBox` configuration
with degenerate bounds is rejected at construction with a fatal error.
The constructor performs no such check: the parameter list
`[1, 0, 0, 0, 0, 0]`, whose lower bound (1,0,0) exceeds its upper bound
(0,0,0) in the x component, is accepted and the degenerate bounds are
stored. -/
theorem claim_C8_counterexample :
    SpatialBox.ofConfig [1, 0, 0, 0, 0, 0] false =
      some ⟨false, ⟨1, 0, 0⟩, ⟨0, 0, 0⟩⟩ ∧
    ¬ (SpatialBox.ofConfig [1, 0, 0, 0, 0, 0] false = none) := by
  constructor
  · rw [SpatialBox.ofConfig, dif_pos (by simp)]
    rfl
  · rw [SpatialBox.ofConfig, dif_pos (by simp)]
    simp

/-- Claim C8 as amended: `SpatialBox` construction validates only the
parameter count.  Every six-entry parameter list is accepted — including
one with a lower-bound component strictly greater than the corresponding
upper-bound component — and no degenerate-bounds error is ever raised at
construction; the stored (possibly degenerate) bounds can then be
sampled. -/
theorem claim_C8_amended (params : List ℝ) (fission : Bool)
    (h : params.length = 6) :
    (SpatialBox.ofConfig params fission).isSome = true := by
  rw [SpatialBox.ofConfig, dif_pos h]
  rfl

/-- Witness for the amended claim C8 at a concrete degenerate input: the
parameter list [2, 2, 2, 1, 1, 1] (lower (2,2,2) above upper (1,1,1)) is
accepted by the constructor. -/
theorem claim_C8_amended_witness :
    (SpatialBox.ofConfig [2, 2, 2, 1, 1, 1] false).isSome = true :=
  claim_C8_amended [2, 2, 2, 1, 1, 1] false (by simp)

/-- Claim C10: two boxes with identical lower and upper bounds produce
identical samples from an identical pseudorandom state, whatever their
fissionable-only flags (the position does not depend on
`only_fissionable_`); and the flag passed at construction is stored
verbatim, so the restriction is left to the caller. -/
theorem claim_C10 :
    (∀ b1 b2 : SpatialBox, ∀ rng : RNG,
      b1.lower_left_ = b2.lower_left_ → b1.upper_right_ = b2.upper_right_ →
      b1.sample rng = b2.sample rng) ∧
    (∀ (params : List ℝ) (fission : Bool) (b : SpatialBox),
      SpatialBox.ofConfig params fission = some b →
      b.only_fissionable_ = fission) := by
  constructor
  · intro b1 b2 rng hlo hhi
    rw [SpatialBox.sample_eq, SpatialBox.sample_eq, hlo, hhi]
  · intro params fission b hb
    rw [SpatialBox.ofConfig] at hb
    split at hb
    · cases hb
      rfl
    · cases hb

/-- Witness for claim C10 at concrete inputs: the boxes with bounds
(0,0,0)-(1,2,3) and flags `true` resp. `false` sample identically on the
all-zero stream, and a constructed box stores the flag it was given. -/
theorem claim_C10_witness :
    SpatialBox.sample ⟨true, ⟨0, 0, 0⟩, ⟨1, 2, 3⟩⟩ zeroRng =
      SpatialBox.sample ⟨false, ⟨0, 0, 0⟩, ⟨1, 2, 3⟩⟩ zeroRng ∧
    ∀ b : SpatialBox, SpatialBox.ofConfig [1, 2, 3, 4, 5, 6] true = some b →
      b.only_fissionable_ = true := by
  exact ⟨claim_C10.1 _ _ zeroRng rfl rfl,
         fun b hb => claim_C10.2 [1, 2, 3, 4, 5, 6] true b hb⟩

/-- Claim C9: sampling never mutates the distribution itself — the
stateful dispatch returns every variant unchanged; the only mutated state
is the pseudorandom stream cursor (`SpatialBox::sample` advances it by
exactly three draws and leaves the stream values themselves intact), and
`SpatialPoint::sample` mutates nothing at all, returning the configured
coordinate on every draw. -/
theorem claim_C9 :
    (∀ (d : SpatialDistribution) (rng : RNG), (d.sampleS rng).2.1 = d) ∧
    (∀ (pt : SpatialPoint) (rng : RNG), pt.sample rng = (pt.r_, rng)) ∧
    (∀ (b : SpatialBox) (rng : RNG),
      (b.sample rng).2.stream = rng.stream ∧
      (b.sample rng).2.idx = rng.idx + 3) := by
  refine ⟨fun d rng => ?_, fun pt rng => rfl, fun b rng => ⟨rfl, rfl⟩⟩
  cases d <;> rfl

/-- Claim C4: a `CartesianIndependent` built from a configuration with no
x, y or z child gets the fixed-point-at-0 default on every axis, so its
sample is (0,0,0) for every pseudorandom state; in general a sample is
one draw from each of the three child samplers, threaded x then y then z,
assembled as the position. -/
theorem claim_C4 (d : CartesianIndependent) (rng rng2 : RNG) :
    ((CartesianIndependent.ofConfig ⟨none, none, none⟩).sample rng).1 =
      ⟨0, 0, 0⟩ ∧
    d.sample rng2 =
      (⟨(d.x_ rng2).1, (d.y_ (d.x_ rng2).2).1,
        (d.z_ (d.y_ (d.x_ rng2).2).2).1⟩,
       (d.z_ (d.y_ (d.x_ rng2).2).2).2) :=
  ⟨rfl, rfl⟩

/-- Claim C3: a `CylindricalIndependent` sample draws the radius, then the
angle, then z, each from its own child sampler on the threaded
pseudorandom state, and returns exactly
(r·cos θ, r·sin θ, z) — the raw radius draw with no Jacobian
correction — so the squared planar distance of the result equals the
squared sampled radius exactly, and the z component is the draw from the
configured z sampler. -/
theorem claim_C3 (d : CylindricalIndependent) (rng : RNG) :
    d.sample rng =
      (⟨(d.r_ rng).1 * Real.cos (d.theta_ (d.r_ rng).2).1,
        (d.r_ rng).1 * Real.sin (d.theta_ (d.r_ rng).2).1,
        (d.z_ (d.theta_ (d.r_ rng).2).2).1⟩,
       (d.z_ (d.theta_ (d.r_ rng).2).2).2) ∧
    (d.sample rng).1.x ^ 2 + (d.sample rng).1.y ^ 2 = (d.r_ rng).1 ^ 2 := by
  refine ⟨rfl, ?_⟩
  show ((d.r_ rng).1 * Real.cos (d.theta_ (d.r_ rng).2).1) ^ 2 +
      ((d.r_ rng).1 * Real.sin (d.theta_ (d.r_ rng).2).1) ^ 2 =
      (d.r_ rng).1 ^ 2
  have h := Real.sin_sq_add_cos_sq (d.theta_ (d.r_ rng).2).1
  linear_combination (d.r_ rng).1 ^ 2 * h

/-- Claim C2: on a valid box (lower ≤ upper component-wise) each
`SpatialBox::sample` call takes exactly three values from the
pseudorandom stream (the cursor advances by three, the stream itself is
untouched), each drawn value lies in [0,1), the returned position is
`lower + xi*(upper - lower)` component-wise, and over any run of N ≥ 1
successive draws every sampled coordinate lies in [lower, upper]
component-wise. -/
theorem claim_C2 (b : SpatialBox) (rng : RNG) (N : ℕ) (_hN : 1 ≤ N)
    (hb : b.valid) (hs : rng.in01) :
    (b.sample rng).1 = b.lower_left_ +
      (⟨rng.stream rng.idx, rng.stream (rng.idx + 1),
        rng.stream (rng.idx + 2)⟩ : Position) *
      (b.upper_right_ - b.lower_left_) ∧
    (b.sample rng).2 = ⟨rng.stream, rng.idx + 3⟩ ∧
    (∀ k, k < 3 → 0 ≤ rng.stream (rng.idx + k) ∧ rng.stream (rng.idx + k) < 1) ∧
    ∀ p ∈ (b.sampleN N rng).1, b.contains p :=
  ⟨rfl, rfl, fun k _ => hs (rng.idx + k), b.sampleN_mem hb N rng hs⟩

/-- Witness for claim C2 at concrete inputs: one draw on the box
(0,0,0)-(1,2,3) with the all-zero stream lands inside the box and leaves
the cursor advanced by three. -/
theorem claim_C2_witness :
    unitBox.contains (unitBox.sample zeroRng).1 ∧
    (unitBox.sample zeroRng).2.idx = zeroRng.idx + 3 := by
  have h := claim_C2 unitBox zeroRng 1 (by norm_num)
    (by refine ⟨?_, ?_, ?_⟩ <;> norm_num [unitBox, SpatialBox.valid])
    (fun n => ⟨le_rfl, by norm_num [zeroRng]⟩)
  refine ⟨h.2.2.2 _ ?_, by rw [h.2.1]⟩
  simp [SpatialBox.sampleN]

/-- Claim C5: with the secondary bank already holding `MAX_SECONDARY`
(1000) records, one further `create_secondary` call is a fatal error
(modelled as `none`: `fatal_error` aborts before anything is written, so
the count and the stored records are untouched — no partial write, no
drop, no overwrite); below capacity the call appends exactly one record
carrying the current particle position (level 0) and weight with the
given direction, energy and kind, and the count grows by exactly one. -/
theorem claim_C5 (p : Particle) (uvw : Position) (E : ℝ)
    (ty : ParticleType) (ce : Bool) :
    (p.n_secondary = MAX_SECONDARY → p.create_secondary uvw E ty ce = none) ∧
    (p.n_secondary < MAX_SECONDARY →
      ∃ q, p.create_secondary uvw E ty ce = some q ∧
        q.secondary_bank_ = p.secondary_bank_ ++
          [⟨p.wgt_, (p.coord_ 0).xyz, uvw, E, ty, p.delayed_group_⟩] ∧
        q.n_secondary = p.n_secondary + 1 ∧
        q.wgt_ = p.wgt_ ∧ q.alive_ = p.alive_) := by
  constructor
  · intro h
    have h2 : p.secondary_bank_.length = MAX_SECONDARY := h
    rw [Particle.create_secondary, if_pos h2]
  · intro h
    have h2 : ¬ p.secondary_bank_.length = MAX_SECONDARY := Nat.ne_of_lt h
    rw [Particle.create_secondary, if_neg h2]
    refine ⟨_, rfl, rfl, ?_, rfl, rfl⟩
    simp [Particle.n_secondary]

/-- Witness for claim C5 at concrete inputs: the call fails on a particle
whose bank holds exactly 1000 records and succeeds on one with an empty
bank. -/
theorem claim_C5_witness :
    fullParticle.create_secondary ⟨0, 0, 1⟩ 2000000 ParticleType.neutron true
      = none ∧
    (testParticle.create_secondary ⟨0, 0, 1⟩ 2000000 ParticleType.neutron
      true).isSome = true := by
  constructor
  · exact (claim_C5 fullParticle _ _ _ _).1
      (by simp only [fullParticle, Particle.n_secondary, List.length_replicate])
  · obtain ⟨q, hq, -⟩ :=
      (claim_C5 testParticle ⟨0, 0, 1⟩ 2000000 ParticleType.neutron true).2
      (by simp only [testParticle, Particle.n_secondary, MAX_SECONDARY,
            List.length_nil]; norm_num)
    simp [hq]

/-- Claim C6: seeding a particle from a Source Record with physically
valid fields (weight > 0) and performing no transport steps leaves every
record field exactly recoverable from the particle state — position and
direction sit in level 0 of the coordinate stack and the scalar fields
(energy, weight, kind, delayed group) are set, so extraction is a
round-trip identity; moreover the stack above level 0 is cleared (count 1,
higher levels reset to the canonical unset state), the secondary bank is
reset, `alive_` becomes true and the per-history counters are reset. -/
theorem claim_C6 (p : Particle) (src : Bank) (hw : 0 < src.wgt) :
    (p.from_source src).extract_source = src ∧
    (p.from_source src).alive_ = true ∧
    (p.from_source src).n_coord_ = 1 ∧
    (p.from_source src).secondary_bank_ = [] ∧
    (p.from_source src).n_collision_ = 0 ∧
    (p.from_source src).n_bank_ = 0 ∧
    (p.from_source src).wgt_bank_ = 0 ∧
    (p.from_source src).absorb_wgt_ = 0 ∧
    ∀ i, 0 < i → (p.from_source src).coord_ i = (p.coord_ i).reset := by
  refine ⟨?_, rfl, rfl, rfl, rfl, rfl, rfl, rfl, ?_⟩
  · cases src
    rfl
  · intro i hi
    simp [Particle.from_source, Nat.pos_iff_ne_zero.mp hi]

/-- Witness for claim C6 at concrete inputs: the test record (weight 1,
position (1,2,3), direction (0,0,1), energy 1e6) round-trips through
`from_source` on the test particle, which comes out alive. -/
theorem claim_C6_witness :
    (testParticle.from_source testBankRecord).extract_source =
      testBankRecord ∧
    (testParticle.from_source testBankRecord).alive_ = true := by
  have h := claim_C6 testParticle testBankRecord (by norm_num [testBankRecord])
  exact ⟨h.1, h.2.1⟩

/-- Claim C7: `mark_as_lost` sets `alive_` to false, records the message,
and triggers `write_restart` (the phase-space snapshot as of the call is
persisted); a second call on the same particle leaves the state exactly
as after the first call — idempotent in effect, producing no second
distinct lost event to count. -/
theorem claim_C7 (p : Particle) (m : String) :
    (p.mark_as_lost m).alive_ = false ∧
    (p.mark_as_lost m).lost_message_ = some m ∧
    (p.mark_as_lost m).restart_ =
      some (Particle.phase_snapshot
        { p with alive_ := false, lost_message_ := some m }) ∧
    (p.mark_as_lost m).mark_as_lost m = p.mark_as_lost m :=
  ⟨rfl, rfl, rfl, rfl⟩

end OpenMC
